import Mathlib

/-!
# cp-profiler: layout cache, tree structure and conductor

A shallow embedding of `src/cpprofiler/tree/layout.cpp` and of the execution
bookkeeping of `src/cpprofiler/conductor.cpp`, together with a model of the
tree `Structure` exercised by `src/cpprofiler/tests/tree_test.cpp`.

Conventions of the embedding:

* a `std::vector<T>` is a `List T`; `resize` is `std::vector::resize`;
* a `std::unique_ptr<Shape, ShapeDeleter>` is an `Option S` (`none` is the null pointer);
* `double` is an arbitrary type `V` with a zero, the value `return 0` and
  value-initialisation produce;
* an access the C++ standard leaves undefined is an explicit `UB` result;
* `int` has 32 bits and `size_t` 64; a call that throws is an `Except` error and leaves
  the object as it was.
-/

namespace cpprofiler

namespace tree

/-- Modelled from the spec: the `NodeID` type declaration is not part of the sources;
the spec describes it as a dense integer identity, assigned from 0 (the root) upwards. -/
abbrev NodeID := Nat

/-- The effect of `std::vector::resize(n, value)`: truncate to `n` entries, or append
copies of `value` until there are `n` entries. -/
def resize {α : Type} (v : List α) (n : Nat) (value : α) : List α :=
  v.take n ++ List.replicate (n - v.length) value

/-- The ways in which an unchecked access has undefined behaviour. -/
inductive UB where
  | indexOutOfRange
  | nullDereference
  deriving DecidableEq, Repr

/-- The largest value of `int`. -/
def INT_MAX : Nat := 2147483647

/-- The exception a setter of `Layout` can end with. -/
inductive LayoutError where
  | length_error
  deriving DecidableEq, Repr

/-- The call `v.resize(static_cast<int>(nid)+1, value)` of the setters. The sum is formed
in `int`: for `nid < INT_MAX` it is `nid + 1`; for `nid = INT_MAX` it leaves the range of
`int`, the wrapped value `INT_MIN` becomes `2^64 - 2^31` as a `size_t`, which is beyond
`max_size()`, and `resize` throws `std::length_error` without touching the vector. An id
above `INT_MAX`, which `int` cannot hold, is given the same outcome. -/
def resizeFor {α : Type} (v : List α) (nid : NodeID) (value : α) :
    Except LayoutError (List α) :=
  if nid < INT_MAX then .ok (resize v (nid + 1) value) else .error .length_error

/-- The four parallel vectors of `class Layout` (the mutex carries no data). -/
structure Layout (S : Type) (V : Type) where
  m_shapes : List (Option S) := []
  m_child_offsets : List V := []
  m_layout_done : List Bool := []
  m_dirty : List Bool := []

namespace Layout

variable {S V : Type}

/-- The member `Layout::Layout()`: all four vectors empty. -/
def new : Layout S V := {}

/-- The member `Layout::getShape`: `return *m_shapes[nid];`, with neither a bounds check nor a
null check. -/
def getShape (l : Layout S V) (nid : NodeID) : Except UB S :=
  if h : nid < l.m_shapes.length then
    match l.m_shapes.get ⟨nid, h⟩ with
    | some shape => .ok shape
    | none => .error .nullDereference
  else
    .error .indexOutOfRange

/-- The member `Layout::setShape`. -/
def setShape (l : Layout S V) (nid : NodeID) (shape : Option S) :
    Except LayoutError (Layout S V) :=
  if l.m_shapes.length ≤ nid then
    match resizeFor l.m_shapes nid none with
    | .error e => .error e
    | .ok m_shapes => .ok { l with m_shapes := m_shapes.set nid shape }
  else
    .ok { l with m_shapes := l.m_shapes.set nid shape }

/-- The member `Layout::setChildOffset`. -/
def setChildOffset [Zero V] (l : Layout S V) (nid : NodeID) (offset : V) :
    Except LayoutError (Layout S V) :=
  if l.m_child_offsets.length ≤ nid then
    match resizeFor l.m_child_offsets nid 0 with
    | .error e => .error e
    | .ok m_child_offsets => .ok { l with m_child_offsets := m_child_offsets.set nid offset }
  else
    .ok { l with m_child_offsets := l.m_child_offsets.set nid offset }

/-- The member `Layout::setLayoutDone`. -/
def setLayoutDone (l : Layout S V) (nid : NodeID) (val : Bool) :
    Except LayoutError (Layout S V) :=
  if l.m_layout_done.length ≤ nid then
    match resizeFor l.m_layout_done nid false with
    | .error e => .error e
    | .ok m_layout_done => .ok { l with m_layout_done := m_layout_done.set nid val }
  else
    .ok { l with m_layout_done := l.m_layout_done.set nid val }

/-- The member `Layout::getLayoutDone`. -/
def getLayoutDone (l : Layout S V) (nid : NodeID) : Bool :=
  if h : l.m_layout_done.length ≤ nid then false
  else l.m_layout_done.get ⟨nid, Nat.lt_of_not_le h⟩

/-- The member `Layout::getOffset`. -/
def getOffset [Zero V] (l : Layout S V) (nid : NodeID) : V :=
  if h : l.m_child_offsets.length ≤ nid then 0
  else l.m_child_offsets.get ⟨nid, Nat.lt_of_not_le h⟩

/-- The member `Layout::getDepth`; `depth` is `Shape::depth`, declared outside the sources. -/
def getDepth (depth : S → Int) (l : Layout S V) (nid : NodeID) : Except UB Int :=
  (l.getShape nid).map depth

/-- The member `Layout::getBoundingBox`; `boundingBox` is `Shape::boundingBox`, declared outside
the sources. -/
def getBoundingBox {B : Type} (boundingBox : S → B) (l : Layout S V) (nid : NodeID) :
    Except UB B :=
  (l.getShape nid).map boundingBox

/-- The member `Layout::growDataStructures`: `old_size + n_nodes` is computed in `size_t`
(64 bits), `n_nodes` being an `int`. Only `m_child_offsets` is resized. -/
def growDataStructures [Zero V] (l : Layout S V) (n_nodes : Int) : Layout S V :=
  let old_size := l.m_child_offsets.length
  { l with
    m_child_offsets :=
      resize l.m_child_offsets ((((old_size : Int) + n_nodes) % 2 ^ 64).toNat) 0 }

/-- The member `Layout::isDirty`. -/
def isDirty (l : Layout S V) (nid : NodeID) : Bool :=
  if h : l.m_dirty.length ≤ nid then true
  else l.m_dirty.get ⟨nid, Nat.lt_of_not_le h⟩

/-- The member `Layout::setDirty`. -/
def setDirty (l : Layout S V) (nid : NodeID) (val : Bool) :
    Except LayoutError (Layout S V) :=
  if l.m_dirty.length ≤ nid then
    match resizeFor l.m_dirty nid true with
    | .error e => .error e
    | .ok m_dirty => .ok { l with m_dirty := m_dirty.set nid val }
  else
    .ok { l with m_dirty := l.m_dirty.set nid val }

/-- The layout after a call of a setter on `l`: the new state when the call returns, `l`
itself when it throws. -/
def after (l : Layout S V) (r : Except LayoutError (Layout S V)) : Layout S V :=
  match r with
  | .ok l1 => l1
  | .error _ => l

/-- The id `nid` can be written to the vector of `size` entries: it is inside the vector
already, or the vector can be resized for it. -/
def Writable (size : Nat) (nid : NodeID) : Prop :=
  nid < INT_MAX ∨ nid < size

/-- The shape stored for `nid`, as `getShape` observes it: present exactly when
`getShape` succeeds. -/
def storedShape (l : Layout S V) (nid : NodeID) : Option S :=
  (l.getShape nid).toOption

/-- A call of one of the mutating member functions of `Layout`. -/
inductive Call (S V : Type) where
  | setChildOffset (nid : NodeID) (offset : V)
  | setDirty (nid : NodeID) (val : Bool)
  | setLayoutDone (nid : NodeID) (val : Bool)
  | setShape (nid : NodeID) (shape : Option S)
  | growDataStructures (n_nodes : Int)

/-- Perform one call; a setter that throws leaves the layout as it was. -/
def step [Zero V] (l : Layout S V) : Call S V → Layout S V
  | .setChildOffset nid offset => l.after (l.setChildOffset nid offset)
  | .setDirty nid val => l.after (l.setDirty nid val)
  | .setLayoutDone nid val => l.after (l.setLayoutDone nid val)
  | .setShape nid shape => l.after (l.setShape nid shape)
  | .growDataStructures n_nodes => l.growDataStructures n_nodes

/-- Perform a sequence of calls, first to last. -/
def run [Zero V] (l : Layout S V) (calls : List (Call S V)) : Layout S V :=
  calls.foldl step l

/-- A sample run: node 5 gets an offset, node 3 is marked clean, storage is pre-grown by
two entries, node 4 gets a null shape and node 6 is marked layout-done. -/
def sampleCalls : List (Call Unit Int) :=
  [.setChildOffset 5 7, .setDirty 3 false, .growDataStructures 2, .setShape 4 none,
   .setLayoutDone 6 true]

/-- A sample layout: three offsets stored, nothing else. -/
def sampleLayout : Layout Unit Int :=
  { m_child_offsets := [4, 0, 9] }

/-- The layout with a shape stored for node 1 only. -/
def shapedAtOne (s : S) : Layout S V :=
  { m_shapes := [none, some s] }

/-- The number of entries of the backing storage, all four vectors together. -/
def storageEntries (l : Layout S V) : Nat :=
  l.m_shapes.length + l.m_child_offsets.length + l.m_layout_done.length + l.m_dirty.length

/-- The storage `now` is the storage `before` after a write at index `n`: it has
`max(before, n + 1)` entries, so at least as many as before and more than `n`. -/
def GrownFor (before now n : Nat) : Prop :=
  now = max before (n + 1) ∧ before ≤ now ∧ n < now

/-- The vector after the body of a setter has run to its end: grown for `nid` if need be,
then written at `nid`. -/
def written {α : Type} (v : List α) (nid : NodeID) (x fill : α) : List α :=
  (if v.length ≤ nid then resize v (nid + 1) fill else v).set nid x

end Layout

/-- Modelled from the spec: `Status` of a node (`structure.hh` is not part of the
sources); the spec lists Branch, Solution, Failure, Skipped, Undetermined. -/
inductive Status where
  | Branch
  | Solution
  | Failure
  | Skipped
  | Undetermined
  deriving DecidableEq, Repr

/-- Modelled from the spec: the implicit node record of `Structure` (missing from the
sources): parent (none for the root), ordered child list, status. -/
structure Node where
  parent : Option NodeID
  children : List NodeID
  status : Status
  deriving DecidableEq, Repr

/-- Modelled from the spec: the errors of direct `Structure` queries. -/
inductive StructureError where
  | UnknownParent
  | IndexOutOfRange
  deriving DecidableEq, Repr

/-- Modelled from the spec: `class Structure` (`structure.hh` and `structure.cpp` are
missing from the sources): the nodes of one tree, indexed by their dense `NodeID`. -/
structure Structure where
  nodes : List Node := []
  deriving DecidableEq, Repr

namespace Structure

/-- Modelled from the spec: `Structure::createRoot` (missing from the sources): creates
node 0 with status Undetermined; callable once per tree, so it is refused on a tree that
has nodes already. -/
def createRoot (str : Structure) : Option (Structure × NodeID) :=
  if str.nodes.isEmpty then
    some ({ nodes := [{ parent := none, children := [], status := .Undetermined }] }, 0)
  else
    none

/-- Modelled from the spec: `Structure::addExtraChild` (missing from the sources): appends
a new child, with the next free `NodeID`, to the child list of `parent` at the next index;
fails with `UnknownParent` if `parent` does not exist. -/
def addExtraChild (str : Structure) (parent : NodeID) :
    Except StructureError (Structure × NodeID) :=
  match str.nodes.get? parent with
  | none => .error .UnknownParent
  | some p =>
    let nid : NodeID := str.nodes.length
    let linked := str.nodes.set parent { p with children := p.children ++ [nid] }
    .ok ({ nodes := linked ++ [{ parent := some parent, children := [],
                                 status := .Undetermined }] }, nid)

/-- Modelled from the spec: `Structure::childCount` (missing from the sources). -/
def childCount (str : Structure) (parent : NodeID) : Nat :=
  match str.nodes.get? parent with
  | none => 0
  | some p => p.children.length

/-- Modelled from the spec: `Structure::getChild` (missing from the sources): fails with
`IndexOutOfRange` if `index >= childCount(parent)`, with `UnknownParent` if `parent` does
not exist. -/
def getChild (str : Structure) (parent : NodeID) (index : Nat) :
    Except StructureError NodeID :=
  match str.nodes.get? parent with
  | none => .error .UnknownParent
  | some p =>
    match p.children.get? index with
    | none => .error .IndexOutOfRange
    | some child => .ok child

/-- The `n` sequential calls `addExtraChild(parent)`, returning the final tree and the
ids returned, in call order. -/
def addExtraChildren (str : Structure) (parent : NodeID) :
    Nat → Except StructureError (Structure × List NodeID)
  | 0 => .ok (str, [])
  | n + 1 =>
    match addExtraChildren str parent n with
    | .error e => .error e
    | .ok (str1, created) =>
      match str1.addExtraChild parent with
      | .error e => .error e
      | .ok (str2, nid) => .ok (str2, created ++ [nid])

end Structure

/-- The test `growing_tree` of `tests/tree_test.cpp`, for `n` children instead of three:
`createRoot` on a fresh `Structure`, then `n` sequential `addExtraChild(root)`. The result
is the root, the final tree and the ids the `addExtraChild` calls returned. -/
def growing_tree (n : Nat) : Option (NodeID × Structure × List NodeID) :=
  match Structure.createRoot {} with
  | none => none
  | some (str, root) =>
    match str.addExtraChildren root n with
    | .error _ => none
    | .ok (str1, created) => some (root, str1, created)

/-- The ids `1, ..., n`. -/
def childIds (n : Nat) : List NodeID :=
  (List.range n).map (fun i => i + 1)

/-- The tree of a root, node 0, with the `n` children `1, ..., n`, all leaves. -/
def fanTree (n : Nat) : Structure :=
  { nodes := { parent := none, children := childIds n, status := .Undetermined } ::
      List.replicate n { parent := some 0, children := [], status := .Undetermined } }

end tree

/-- A `std::map` / `std::unordered_map` with `int` keys, as an association list. -/
abbrev IntMap (β : Type) := List (Int × β)

namespace IntMap

variable {β : Type}

/-- The lookup `m.find(k)`: the mapped value, `none` standing for `m.end()`. -/
def find : IntMap β → Int → Option β
  | [], _ => none
  | (k1, v1) :: m, k => if k1 = k then some v1 else find m k

/-- The assignment `m[k] = v`. -/
def assign : IntMap β → Int → β → IntMap β
  | [], k, v => [(k, v)]
  | (k1, v1) :: m, k, v => if k1 = k then (k, v) :: m else (k1, v1) :: assign m k v

/-- The expression `m[k]` read as an rvalue: the mapped value, after inserting the value-initialised
`dflt` when the key is missing. -/
def index (m : IntMap β) (k : Int) (dflt : β) : β × IntMap β :=
  match m.find k with
  | some v => (v, m)
  | none => (dflt, m.assign k dflt)

/-- The keys held in the map. -/
def keys (m : IntMap β) : List Int :=
  m.map Prod.fst

end IntMap

/-- The fields `paths` and `mzn` of `Options` (declared outside the sources). -/
structure Options where
  paths : String := ""
  mzn : String := ""

/-- An `Execution` object: what `handleStart` gives it; `N` is the `NameMap` type. -/
structure Execution (N : Type) where
  ex_name : String
  restarts : Bool
  name_map : Option N := none

/-- An entry of `exec_meta_`, as `setMetaData` inserts it. -/
structure ExecMeta (N : Type) where
  group_name : String
  ex_name : String
  name_map : Option N

/-- A `TreeBuilder` object: the execution it was constructed for, as a pointer. -/
structure TreeBuilder where
  m_execution : Nat
  deriving DecidableEq, Repr

/-- The state of `Conductor` that `getNextExecId`, `handleStart` and `addNewExecution`
read and write. Objects created with `make_shared` and `new` live in `executions` and
`builders`; a pointer is an index into those lists and `none` is the null pointer. -/
structure Conductor (N : Type) where
  m_options : Options := {}
  exec_meta_ : IntMap (ExecMeta N) := []
  executions : List (Execution N) := []
  builders : List TreeBuilder := []
  m_executions : IntMap Nat := []
  m_builders : IntMap (Option Nat) := []

namespace Conductor

variable {N : Type}

/-- The loop of `Conductor::getNextExecId`, from the value `eid`, for at most `fuel`
tests of the loop condition. -/
def getNextExecIdLoop (c : Conductor N) : Nat → Int → Option Int
  | 0, _ => none
  | fuel + 1, eid =>
    if (c.m_executions.find eid).isSome then getNextExecIdLoop c fuel (eid + 1)
    else some eid

/-- The member `Conductor::getNextExecId`; one more test than there are entries in the map. -/
def getNextExecId (c : Conductor N) : Option Int :=
  c.getNextExecIdLoop (c.m_executions.length + 1) 0

/-- The member `Conductor::addNewExecution`; `random` is what `getRandomExID()` returns if called.
The execution list and the execution window are presentation. Returns `ex.get()`. -/
def addNewExecution (c : Conductor N) (random : Int) (ex_name : String) (ex_id : Int)
    (restarts : Bool) : Conductor N × Nat :=
  let ex : Nat := c.executions.length
  let c1 : Conductor N :=
    { c with executions := c.executions ++ [{ ex_name := ex_name, restarts := restarts }] }
  let ex_id := if ex_id = 0 then random else ex_id
  ({ c1 with m_executions := c1.m_executions.assign ex_id ex }, ex)

/-- The member `Execution::setNameMap` through the pointer `ex`. -/
def setNameMap (c : Conductor N) (ex : Nat) (nm : Option N) : Conductor N :=
  { c with executions := c.executions.modify (fun e => { e with name_map := nm }) ex }

/-- The member `Conductor::handleStart`; `random` is what `getRandomExID()` returns if called and
`loaded` the name map that `NameMap::initialize` succeeds with, if it does. Returns the
builder pointer that the receiver is connected to. -/
def handleStart (c : Conductor N) (random : Int) (loaded : Option N)
    (ex_name : String) (ex_id : Int) (restarts : Bool) : Conductor N × Option Nat :=
  let res := c.m_executions.find ex_id
  let c1 :=
    if res.isNone || ex_id == 0 then
      -- `ide_used` is the case `some md` of the lookups in `exec_meta_`
      let ex_name_used :=
        match c.exec_meta_.find ex_id with
        | some md => md.ex_name
        | none => ex_name
      let (c2, ex) := c.addNewExecution random ex_name_used ex_id restarts
      let c3 :=
        match c2.exec_meta_.find ex_id with
        | some md => c2.setNameMap ex md.name_map
        | none =>
          if c2.m_options.paths ≠ "" ∧ c2.m_options.mzn ≠ "" then
            match loaded with
            | some nm => c2.setNameMap ex (some nm)
            | none => c2
          else c2
      let builder : Nat := c3.builders.length
      let c4 : Conductor N := { c3 with builders := c3.builders ++ [{ m_execution := ex }] }
      { c4 with m_builders := c4.m_builders.assign ex_id (some builder) }
    else c
  let (builder, m_builders) := c1.m_builders.index ex_id none
  ({ c1 with m_builders := m_builders }, builder)

/-- A conductor holding five executions, under the ids 0, 2, 1, -3 and 100. -/
def sampleConductor : Conductor Unit :=
  { m_executions := [(0, 0), (2, 1), (1, 2), (-3, 3), (100, 4)] }

/-- A fresh conductor after one `handleStart` with `ex_id = 0`, the random id being 100. -/
def startedAnonymous : Conductor Unit :=
  (handleStart {} 100 none "solver" 0 false).1

end Conductor

/-! ## Vectors: `resize`, guarded reads and growing writes -/

namespace tree

theorem length_resize {α : Type} (v : List α) (n : Nat) (value : α) :
    (resize v n value).length = n := by
  simp only [resize, List.length_append, List.length_take, List.length_replicate]
  omega

theorem getElem?_resize {α : Type} (v : List α) (n : Nat) (value : α) (i : Nat) :
    (resize v n value)[i]? = if i < n then some (v.getD i value) else none := by
  unfold resize
  by_cases hin : i < n
  · rw [if_pos hin]
    by_cases hiv : i < v.length
    · rw [List.getElem?_append_left (by simp; omega), List.getElem?_take_of_lt hin,
        List.getD_eq_getElem?_getD, List.getElem?_eq_getElem hiv]
      rfl
    · rw [List.getElem?_append_right (by simp; omega), List.getElem?_replicate,
        if_pos (by simp; omega), List.getD_eq_getElem?_getD,
        List.getElem?_eq_none (by omega)]
      rfl
  · rw [if_neg hin]
    apply List.getElem?_eq_none
    simp only [List.length_append, List.length_take, List.length_replicate]
    omega

/-- A write `v[nid] = x` preceded by the growth `if (v.size() <= nid) v.resize(nid+1, fill)`. -/
theorem getElem?_grow_set {α : Type} (v : List α) (nid : Nat) (x fill : α) (i : Nat) :
    ((if v.length ≤ nid then resize v (nid + 1) fill else v).set nid x)[i]? =
      if i = nid then some x
      else if i < nid ∧ v.length ≤ nid then some (v.getD i fill) else v[i]? := by
  by_cases hg : v.length ≤ nid
  · simp only [if_pos hg, List.getElem?_set, length_resize, getElem?_resize]
    by_cases hi : i = nid
    · subst hi; simp
    · have hi2 : ¬ nid = i := fun h => hi h.symm
      simp only [if_neg hi, if_neg hi2, hg, and_true]
      by_cases hlt : i < nid
      · rw [if_pos (by omega), if_pos hlt]
      · rw [if_neg (by omega), if_neg hlt, List.getElem?_eq_none (by omega)]
  · simp only [if_neg hg, List.getElem?_set, hg, and_false, if_false]
    by_cases hi : i = nid
    · subst hi; simp; omega
    · have hi2 : ¬ nid = i := fun h => hi h.symm
      simp only [if_neg hi, if_neg hi2]

theorem length_grow_set {α : Type} (v : List α) (nid : Nat) (x fill : α) :
    ((if v.length ≤ nid then resize v (nid + 1) fill else v).set nid x).length =
      max v.length (nid + 1) := by
  by_cases hg : v.length ≤ nid
  · simp only [if_pos hg, List.length_set, length_resize]; omega
  · simp only [if_neg hg, List.length_set]; omega

theorem getD_grow_set {α : Type} (v : List α) (nid : Nat) (x fill : α) (i : Nat) :
    ((if v.length ≤ nid then resize v (nid + 1) fill else v).set nid x).getD i fill =
      if i = nid then x else v.getD i fill := by
  rw [List.getD_eq_getElem?_getD, getElem?_grow_set]
  by_cases hi : i = nid
  · simp [hi]
  · simp only [if_neg hi]
    by_cases h2 : i < nid ∧ v.length ≤ nid
    · simp [h2]
    · rw [if_neg h2, List.getD_eq_getElem?_getD]

theorem getD_resize_same {α : Type} (v : List α) (n : Nat) (fill : α) (i : Nat) :
    (resize v n fill).getD i fill = if i < n then v.getD i fill else fill := by
  rw [List.getD_eq_getElem?_getD, getElem?_resize]
  by_cases h : i < n <;> simp [h]

namespace Layout

variable {S V : Type}

theorem getOffset_eq_getD [Zero V] (l : Layout S V) (nid : NodeID) :
    l.getOffset nid = l.m_child_offsets.getD nid 0 := by
  unfold getOffset
  by_cases h : l.m_child_offsets.length ≤ nid
  · rw [dif_pos h, List.getD_eq_getElem?_getD, List.getElem?_eq_none h]; rfl
  · rw [dif_neg h, List.getD_eq_getElem?_getD,
      List.getElem?_eq_getElem (Nat.lt_of_not_le h)]; rfl

theorem isDirty_eq_getD (l : Layout S V) (nid : NodeID) :
    l.isDirty nid = l.m_dirty.getD nid true := by
  unfold isDirty
  by_cases h : l.m_dirty.length ≤ nid
  · rw [dif_pos h, List.getD_eq_getElem?_getD, List.getElem?_eq_none h]; rfl
  · rw [dif_neg h, List.getD_eq_getElem?_getD,
      List.getElem?_eq_getElem (Nat.lt_of_not_le h)]; rfl

theorem getLayoutDone_eq_getD (l : Layout S V) (nid : NodeID) :
    l.getLayoutDone nid = l.m_layout_done.getD nid false := by
  unfold getLayoutDone
  by_cases h : l.m_layout_done.length ≤ nid
  · rw [dif_pos h, List.getD_eq_getElem?_getD, List.getElem?_eq_none h]; rfl
  · rw [dif_neg h, List.getD_eq_getElem?_getD,
      List.getElem?_eq_getElem (Nat.lt_of_not_le h)]; rfl

theorem storedShape_eq_getD (l : Layout S V) (nid : NodeID) :
    l.storedShape nid = l.m_shapes.getD nid none := by
  unfold storedShape getShape
  by_cases h : nid < l.m_shapes.length
  · rw [dif_pos h, List.getD_eq_getElem?_getD, List.getElem?_eq_getElem h]
    simp only [List.get_eq_getElem, Option.getD_some]
    cases l.m_shapes[nid] <;> rfl
  · rw [dif_neg h, List.getD_eq_getElem?_getD, List.getElem?_eq_none (Nat.le_of_not_lt h)]
    rfl

theorem getD_written {α : Type} (v : List α) (nid : Nat) (x fill : α) (i : Nat) :
    (written v nid x fill).getD i fill = if i = nid then x else v.getD i fill :=
  getD_grow_set v nid x fill i

theorem length_written {α : Type} (v : List α) (nid : Nat) (x fill : α) :
    (written v nid x fill).length = max v.length (nid + 1) :=
  length_grow_set v nid x fill

theorem setShape_ok (l : Layout S V) (n : Nat) (p : Option S)
    (h : Writable l.m_shapes.length n) :
    l.setShape n p = .ok { l with m_shapes := written l.m_shapes n p none } := by
  unfold setShape resizeFor written
  by_cases h1 : l.m_shapes.length ≤ n
  · have h2 : n < INT_MAX := h.elim id (fun h3 => absurd h3 (Nat.not_lt.mpr h1))
    simp only [if_pos h1, if_pos h2]
  · simp only [if_neg h1]

theorem setShape_error (l : Layout S V) (n : Nat) (p : Option S)
    (h : ¬ Writable l.m_shapes.length n) : l.setShape n p = .error .length_error := by
  unfold setShape resizeFor
  have h1 : l.m_shapes.length ≤ n := Nat.le_of_not_lt (fun h3 => h (Or.inr h3))
  have h2 : ¬ n < INT_MAX := fun h3 => h (Or.inl h3)
  simp only [if_pos h1, if_neg h2]

theorem setChildOffset_ok [Zero V] (l : Layout S V) (n : Nat) (v : V)
    (h : Writable l.m_child_offsets.length n) :
    l.setChildOffset n v =
      .ok { l with m_child_offsets := written l.m_child_offsets n v 0 } := by
  unfold setChildOffset resizeFor written
  by_cases h1 : l.m_child_offsets.length ≤ n
  · have h2 : n < INT_MAX := h.elim id (fun h3 => absurd h3 (Nat.not_lt.mpr h1))
    simp only [if_pos h1, if_pos h2]
  · simp only [if_neg h1]

theorem setChildOffset_error [Zero V] (l : Layout S V) (n : Nat) (v : V)
    (h : ¬ Writable l.m_child_offsets.length n) :
    l.setChildOffset n v = .error .length_error := by
  unfold setChildOffset resizeFor
  have h1 : l.m_child_offsets.length ≤ n := Nat.le_of_not_lt (fun h3 => h (Or.inr h3))
  have h2 : ¬ n < INT_MAX := fun h3 => h (Or.inl h3)
  simp only [if_pos h1, if_neg h2]

theorem setDirty_ok (l : Layout S V) (n : Nat) (b : Bool)
    (h : Writable l.m_dirty.length n) :
    l.setDirty n b = .ok { l with m_dirty := written l.m_dirty n b true } := by
  unfold setDirty resizeFor written
  by_cases h1 : l.m_dirty.length ≤ n
  · have h2 : n < INT_MAX := h.elim id (fun h3 => absurd h3 (Nat.not_lt.mpr h1))
    simp only [if_pos h1, if_pos h2]
  · simp only [if_neg h1]

theorem setDirty_error (l : Layout S V) (n : Nat) (b : Bool)
    (h : ¬ Writable l.m_dirty.length n) : l.setDirty n b = .error .length_error := by
  unfold setDirty resizeFor
  have h1 : l.m_dirty.length ≤ n := Nat.le_of_not_lt (fun h3 => h (Or.inr h3))
  have h2 : ¬ n < INT_MAX := fun h3 => h (Or.inl h3)
  simp only [if_pos h1, if_neg h2]

theorem setLayoutDone_ok (l : Layout S V) (n : Nat) (b : Bool)
    (h : Writable l.m_layout_done.length n) :
    l.setLayoutDone n b = .ok { l with m_layout_done := written l.m_layout_done n b false } := by
  unfold setLayoutDone resizeFor written
  by_cases h1 : l.m_layout_done.length ≤ n
  · have h2 : n < INT_MAX := h.elim id (fun h3 => absurd h3 (Nat.not_lt.mpr h1))
    simp only [if_pos h1, if_pos h2]
  · simp only [if_neg h1]

theorem setLayoutDone_error (l : Layout S V) (n : Nat) (b : Bool)
    (h : ¬ Writable l.m_layout_done.length n) :
    l.setLayoutDone n b = .error .length_error := by
  unfold setLayoutDone resizeFor
  have h1 : l.m_layout_done.length ≤ n := Nat.le_of_not_lt (fun h3 => h (Or.inr h3))
  have h2 : ¬ n < INT_MAX := fun h3 => h (Or.inl h3)
  simp only [if_pos h1, if_neg h2]

/-- A call of `setShape`, returning or throwing, leaves the other three vectors alone. -/
theorem after_setShape_frame (l : Layout S V) (n : Nat) (p : Option S) :
    (l.after (l.setShape n p)).m_child_offsets = l.m_child_offsets ∧
    (l.after (l.setShape n p)).m_dirty = l.m_dirty ∧
    (l.after (l.setShape n p)).m_layout_done = l.m_layout_done := by
  by_cases h : Writable l.m_shapes.length n
  · rw [setShape_ok l n p h]; exact ⟨rfl, rfl, rfl⟩
  · rw [setShape_error l n p h]; exact ⟨rfl, rfl, rfl⟩

/-- A call of `setChildOffset`, returning or throwing, leaves the other three vectors
alone. -/
theorem after_setChildOffset_frame [Zero V] (l : Layout S V) (n : Nat) (v : V) :
    (l.after (l.setChildOffset n v)).m_shapes = l.m_shapes ∧
    (l.after (l.setChildOffset n v)).m_dirty = l.m_dirty ∧
    (l.after (l.setChildOffset n v)).m_layout_done = l.m_layout_done := by
  by_cases h : Writable l.m_child_offsets.length n
  · rw [setChildOffset_ok l n v h]; exact ⟨rfl, rfl, rfl⟩
  · rw [setChildOffset_error l n v h]; exact ⟨rfl, rfl, rfl⟩

/-- A call of `setDirty`, returning or throwing, leaves the other three vectors alone. -/
theorem after_setDirty_frame (l : Layout S V) (n : Nat) (b : Bool) :
    (l.after (l.setDirty n b)).m_shapes = l.m_shapes ∧
    (l.after (l.setDirty n b)).m_child_offsets = l.m_child_offsets ∧
    (l.after (l.setDirty n b)).m_layout_done = l.m_layout_done := by
  by_cases h : Writable l.m_dirty.length n
  · rw [setDirty_ok l n b h]; exact ⟨rfl, rfl, rfl⟩
  · rw [setDirty_error l n b h]; exact ⟨rfl, rfl, rfl⟩

/-- A call of `setLayoutDone`, returning or throwing, leaves the other three vectors
alone. -/
theorem after_setLayoutDone_frame (l : Layout S V) (n : Nat) (b : Bool) :
    (l.after (l.setLayoutDone n b)).m_shapes = l.m_shapes ∧
    (l.after (l.setLayoutDone n b)).m_child_offsets = l.m_child_offsets ∧
    (l.after (l.setLayoutDone n b)).m_dirty = l.m_dirty := by
  by_cases h : Writable l.m_layout_done.length n
  · rw [setLayoutDone_ok l n b h]; exact ⟨rfl, rfl, rfl⟩
  · rw [setLayoutDone_error l n b h]; exact ⟨rfl, rfl, rfl⟩

theorem getOffset_congr [Zero V] (l1 l2 : Layout S V)
    (h : l1.m_child_offsets = l2.m_child_offsets) (m : Nat) :
    l1.getOffset m = l2.getOffset m := by
  rw [getOffset_eq_getD, getOffset_eq_getD, h]

theorem isDirty_congr (l1 l2 : Layout S V) (h : l1.m_dirty = l2.m_dirty) (m : Nat) :
    l1.isDirty m = l2.isDirty m := by
  rw [isDirty_eq_getD, isDirty_eq_getD, h]

theorem getLayoutDone_congr (l1 l2 : Layout S V) (h : l1.m_layout_done = l2.m_layout_done)
    (m : Nat) : l1.getLayoutDone m = l2.getLayoutDone m := by
  rw [getLayoutDone_eq_getD, getLayoutDone_eq_getD, h]

theorem storedShape_congr (l1 l2 : Layout S V) (h : l1.m_shapes = l2.m_shapes) (m : Nat) :
    l1.storedShape m = l2.storedShape m := by
  rw [storedShape_eq_getD, storedShape_eq_getD, h]

theorem getOffset_written [Zero V] (l : Layout S V) (n m : Nat) (v : V) :
    ({ l with m_child_offsets := written l.m_child_offsets n v 0 } : Layout S V).getOffset m =
      if m = n then v else l.getOffset m := by
  rw [getOffset_eq_getD, getOffset_eq_getD]
  exact getD_written l.m_child_offsets n v 0 m

theorem isDirty_written (l : Layout S V) (n m : Nat) (b : Bool) :
    ({ l with m_dirty := written l.m_dirty n b true } : Layout S V).isDirty m =
      if m = n then b else l.isDirty m := by
  rw [isDirty_eq_getD, isDirty_eq_getD]
  exact getD_written l.m_dirty n b true m

theorem getLayoutDone_written (l : Layout S V) (n m : Nat) (b : Bool) :
    ({ l with m_layout_done := written l.m_layout_done n b false } : Layout S V).getLayoutDone m =
      if m = n then b else l.getLayoutDone m := by
  rw [getLayoutDone_eq_getD, getLayoutDone_eq_getD]
  exact getD_written l.m_layout_done n b false m

theorem storedShape_written (l : Layout S V) (n m : Nat) (p : Option S) :
    ({ l with m_shapes := written l.m_shapes n p none } : Layout S V).storedShape m =
      if m = n then p else l.storedShape m := by
  rw [storedShape_eq_getD, storedShape_eq_getD]
  exact getD_written l.m_shapes n p none m

theorem getOffset_growDataStructures [Zero V] (l : Layout S V) (k : Int) (m : NodeID) :
    (l.growDataStructures k).getOffset m =
      if m < ((((l.m_child_offsets.length : Int) + k) % 2 ^ 64).toNat) then l.getOffset m
      else 0 := by
  rw [getOffset_eq_getD, getOffset_eq_getD]
  exact getD_resize_same l.m_child_offsets _ 0 m

/-- One call that is not `setChildOffset(n, _)` keeps the offset of `n` at the default. -/
theorem getOffset_step_default [Zero V] (l : Layout S V) (c : Call S V) (n : NodeID)
    (hc : ∀ v, c ≠ Call.setChildOffset n v) (h0 : l.getOffset n = 0) :
    (l.step c).getOffset n = 0 := by
  cases c with
  | setChildOffset nid offset =>
    have hne : n ≠ nid := fun h => hc offset (by rw [h])
    show (l.after (l.setChildOffset nid offset)).getOffset n = 0
    by_cases hw : Writable l.m_child_offsets.length nid
    · rw [setChildOffset_ok l nid offset hw]
      show ({ l with m_child_offsets := written l.m_child_offsets nid offset 0 } :
        Layout S V).getOffset n = 0
      rw [getOffset_written, if_neg hne, h0]
    · rw [setChildOffset_error l nid offset hw]; exact h0
  | setDirty nid val =>
    exact (getOffset_congr _ l (after_setDirty_frame l nid val).2.1 n).trans h0
  | setLayoutDone nid val =>
    exact (getOffset_congr _ l (after_setLayoutDone_frame l nid val).2.1 n).trans h0
  | setShape nid shape =>
    exact (getOffset_congr _ l (after_setShape_frame l nid shape).1 n).trans h0
  | growDataStructures k =>
    show (l.growDataStructures k).getOffset n = 0
    rw [getOffset_growDataStructures, h0, ite_self]

/-- One call that is not `setDirty(n, _)` keeps the dirty flag of `n` at the default. -/
theorem isDirty_step_default [Zero V] (l : Layout S V) (c : Call S V) (n : NodeID)
    (hc : ∀ b, c ≠ Call.setDirty n b) (h0 : l.isDirty n = true) :
    (l.step c).isDirty n = true := by
  cases c with
  | setDirty nid val =>
    have hne : n ≠ nid := fun h => hc val (by rw [h])
    show (l.after (l.setDirty nid val)).isDirty n = true
    by_cases hw : Writable l.m_dirty.length nid
    · rw [setDirty_ok l nid val hw]
      show ({ l with m_dirty := written l.m_dirty nid val true } : Layout S V).isDirty n = true
      rw [isDirty_written, if_neg hne, h0]
    · rw [setDirty_error l nid val hw]; exact h0
  | setChildOffset nid offset =>
    exact (isDirty_congr _ l (after_setChildOffset_frame l nid offset).2.1 n).trans h0
  | setLayoutDone nid val =>
    exact (isDirty_congr _ l (after_setLayoutDone_frame l nid val).2.2 n).trans h0
  | setShape nid shape =>
    exact (isDirty_congr _ l (after_setShape_frame l nid shape).2.1 n).trans h0
  | growDataStructures k => exact h0

/-- One call that is not `setLayoutDone(n, _)` keeps the layout-done flag of `n` at the
default. -/
theorem getLayoutDone_step_default [Zero V] (l : Layout S V) (c : Call S V) (n : NodeID)
    (hc : ∀ b, c ≠ Call.setLayoutDone n b) (h0 : l.getLayoutDone n = false) :
    (l.step c).getLayoutDone n = false := by
  cases c with
  | setLayoutDone nid val =>
    have hne : n ≠ nid := fun h => hc val (by rw [h])
    show (l.after (l.setLayoutDone nid val)).getLayoutDone n = false
    by_cases hw : Writable l.m_layout_done.length nid
    · rw [setLayoutDone_ok l nid val hw]
      show ({ l with m_layout_done := written l.m_layout_done nid val false } :
        Layout S V).getLayoutDone n = false
      rw [getLayoutDone_written, if_neg hne, h0]
    · rw [setLayoutDone_error l nid val hw]; exact h0
  | setChildOffset nid offset =>
    exact (getLayoutDone_congr _ l (after_setChildOffset_frame l nid offset).2.2 n).trans h0
  | setDirty nid val =>
    exact (getLayoutDone_congr _ l (after_setDirty_frame l nid val).2.2 n).trans h0
  | setShape nid shape =>
    exact (getLayoutDone_congr _ l (after_setShape_frame l nid shape).2.2 n).trans h0
  | growDataStructures k => exact h0

theorem getOffset_new [Zero V] (n : NodeID) : (new : Layout S V).getOffset n = 0 := by
  rw [getOffset_eq_getD]; rfl

theorem isDirty_new (n : NodeID) : (new : Layout S V).isDirty n = true := by
  rw [isDirty_eq_getD]; rfl

theorem getLayoutDone_new (n : NodeID) : (new : Layout S V).getLayoutDone n = false := by
  rw [getLayoutDone_eq_getD]; rfl

/-- A property of a layout kept by every call of a sequence holds after the sequence. -/
theorem run_induction [Zero V] (P : Layout S V → Prop) (calls : List (Call S V))
    (hstep : ∀ l c, c ∈ calls → P l → P (l.step c)) (l : Layout S V) (h : P l) :
    P (l.run calls) := by
  induction calls generalizing l with
  | nil => exact h
  | cons c cs ih =>
    show P ((l.step c).run cs)
    exact ih (fun l1 c1 hc1 => hstep l1 c1 (List.mem_cons_of_mem c hc1)) _
      (hstep l c (List.mem_cons_self c cs) h)

/-- The id `INT_MAX` cannot be written to an empty vector. -/
theorem not_writable_INT_MAX : ¬ Writable 0 2147483647 :=
  fun h => h.elim (by decide) (by decide)

/-! ## The claims on `Layout` -/

/-- C1: in every layout reached from a freshly constructed one by a sequence of
`setChildOffset` / `setDirty` / `setLayoutDone` / `setShape` / `growDataStructures` calls,
a node id that was never the argument of `setChildOffset` has offset 0, one that was never
the argument of `setDirty` is dirty, and one that was never the argument of `setLayoutDone`
is not layout-done. -/
theorem defaults_of_never_set [Zero V] (calls : List (Call S V)) (n : NodeID) :
    ((∀ v, Call.setChildOffset n v ∉ calls) → ((new : Layout S V).run calls).getOffset n = 0) ∧
    ((∀ b, Call.setDirty n b ∉ calls) → ((new : Layout S V).run calls).isDirty n = true) ∧
    ((∀ b, Call.setLayoutDone n b ∉ calls) →
      ((new : Layout S V).run calls).getLayoutDone n = false) := by
  refine ⟨fun h => ?_, fun h => ?_, fun h => ?_⟩
  · exact run_induction (fun l => l.getOffset n = 0) calls
      (fun l c hc h0 => getOffset_step_default l c n (fun v hv => h v (hv ▸ hc)) h0) new
      (getOffset_new n)
  · exact run_induction (fun l => l.isDirty n = true) calls
      (fun l c hc h0 => isDirty_step_default l c n (fun b hb => h b (hb ▸ hc)) h0) new
      (isDirty_new n)
  · exact run_induction (fun l => l.getLayoutDone n = false) calls
      (fun l c hc h0 => getLayoutDone_step_default l c n (fun b hb => h b (hb ▸ hc)) h0)
      new (getLayoutDone_new n)

/-- Witness of C1 on `sampleCalls`, for node 2, which lies inside every grown vector and
was never set. -/
theorem defaults_of_never_set_witness :
    ((∀ v, Call.setChildOffset 2 v ∉ sampleCalls) ∧
      ((new : Layout Unit Int).run sampleCalls).getOffset 2 = 0) ∧
    ((∀ b, Call.setDirty 2 b ∉ sampleCalls) ∧
      ((new : Layout Unit Int).run sampleCalls).isDirty 2 = true) ∧
    ((∀ b, Call.setLayoutDone 2 b ∉ sampleCalls) ∧
      ((new : Layout Unit Int).run sampleCalls).getLayoutDone 2 = false) :=
  have h1 : ∀ v, Call.setChildOffset 2 v ∉ sampleCalls := by
    intro v h; simp [sampleCalls] at h
  have h2 : ∀ b, Call.setDirty 2 b ∉ sampleCalls := by
    intro b h; simp [sampleCalls] at h
  have h3 : ∀ b, Call.setLayoutDone 2 b ∉ sampleCalls := by
    intro b h; simp [sampleCalls] at h
  ⟨⟨h1, (defaults_of_never_set sampleCalls 2).1 h1⟩,
   ⟨h2, (defaults_of_never_set sampleCalls 2).2.1 h2⟩,
   ⟨h3, (defaults_of_never_set sampleCalls 2).2.2 h3⟩⟩

/-- C3 (the code at the failing inputs): `getShape` has no guard. On a freshly constructed
layout `getShape(0)` indexes the empty vector, and after `setShape(1, s)`, which returns
normally, the call `getShape(0)` dereferences the null pointer that `resize` put at index
0; `getDepth` and `getBoundingBox` go through `getShape` and inherit both. None of them
yields a shape or a recoverable error. -/
theorem getShape_unguarded {B : Type} (s : S) (depth : S → Int) (boundingBox : S → B) :
    (new : Layout S V).getShape 0 = .error .indexOutOfRange ∧
    (new : Layout S V).getDepth depth 0 = .error .indexOutOfRange ∧
    (new : Layout S V).getBoundingBox boundingBox 0 = .error .indexOutOfRange ∧
    (new : Layout S V).setShape 1 (some s) = .ok (shapedAtOne s) ∧
    (shapedAtOne s : Layout S V).getShape 0 = .error .nullDereference ∧
    (shapedAtOne s : Layout S V).getDepth depth 0 = .error .nullDereference ∧
    (shapedAtOne s : Layout S V).getBoundingBox boundingBox 0 = .error .nullDereference :=
  ⟨rfl, rfl, rfl, setShape_ok new 1 (some s) (Or.inl (by decide)), rfl, rfl, rfl⟩

/-- C4 as stated fails at node id `INT_MAX` on a fresh layout: `setShape(2147483647, s)`
throws and stores nothing, so `getShape(2147483647)` does not return `s` afterwards. -/
theorem setShape_INT_MAX_not_stored :
    (new : Layout Unit Int).setShape 2147483647 (some ()) = .error .length_error ∧
    ((new : Layout Unit Int).after ((new : Layout Unit Int).setShape 2147483647 (some ()))).getShape
      2147483647 ≠ .ok () := by
  have h : (new : Layout Unit Int).setShape 2147483647 (some ()) = .error .length_error :=
    setShape_error new 2147483647 (some ()) not_writable_INT_MAX
  refine ⟨h, ?_⟩
  rw [h]
  intro hget
  cases hget

/-- C4, amended: for a node id `n` that is below `INT_MAX` or already inside the shape
vector, `setShape(n, s)` returns normally, afterwards `getShape(n)` returns `s`, and for
every other node id `m` the stored shape of `m` is what it was before the call (present
and equal, or still absent). -/
theorem getShape_setShape (l : Layout S V) (n m : NodeID) (s : S)
    (hn : Writable l.m_shapes.length n) :
    ∃ l1, l.setShape n (some s) = .ok l1 ∧ l1.getShape n = .ok s ∧
      (m ≠ n → l1.storedShape m = l.storedShape m) := by
  refine ⟨_, setShape_ok l n (some s) hn, ?_, ?_⟩
  · have hst := storedShape_written l n n (some s)
    rw [if_pos rfl] at hst
    unfold storedShape at hst
    cases hg : ({ l with m_shapes := written l.m_shapes n (some s) none } :
        Layout S V).getShape n with
    | error e => rw [hg] at hst; cases hst
    | ok s1 =>
      rw [hg] at hst
      exact congrArg Except.ok (Option.some.inj hst)
  · intro hne
    rw [storedShape_written, if_neg hne]

/-- Witness of C4: storing a shape for node 2 of `sampleLayout` leaves node 1 without one. -/
theorem getShape_setShape_witness :
    Writable sampleLayout.m_shapes.length 2 ∧ (1 : NodeID) ≠ 2 ∧
      ∃ l1, sampleLayout.setShape 2 (some ()) = .ok l1 ∧ l1.getShape 2 = .ok () ∧
        l1.storedShape 1 = sampleLayout.storedShape 1 :=
  have hw : Writable sampleLayout.m_shapes.length 2 := Or.inl (by decide)
  match getShape_setShape sampleLayout 2 1 () hw with
  | ⟨l1, hset, hget, hframe⟩ => ⟨hw, by decide, l1, hset, hget, hframe (by decide)⟩

/-- C5 as stated fails at node id `INT_MAX` on a fresh layout: each of the three setters
throws and stores nothing, so the getter still reports the default, not the value set. -/
theorem set_INT_MAX_not_stored :
    ((new : Layout Unit Int).after
      ((new : Layout Unit Int).setChildOffset 2147483647 1)).getOffset 2147483647 ≠ 1 ∧
    ((new : Layout Unit Int).after
      ((new : Layout Unit Int).setDirty 2147483647 false)).isDirty 2147483647 ≠ false ∧
    ((new : Layout Unit Int).after
      ((new : Layout Unit Int).setLayoutDone 2147483647 true)).getLayoutDone 2147483647 ≠
        true := by
  rw [setChildOffset_error new 2147483647 1 not_writable_INT_MAX,
    setDirty_error new 2147483647 false not_writable_INT_MAX,
    setLayoutDone_error new 2147483647 true not_writable_INT_MAX]
  refine ⟨?_, ?_, ?_⟩
  · show (new : Layout Unit Int).getOffset 2147483647 ≠ 1
    rw [getOffset_new]; decide
  · show (new : Layout Unit Int).isDirty 2147483647 ≠ false
    rw [isDirty_new]; decide
  · show (new : Layout Unit Int).getLayoutDone 2147483647 ≠ true
    rw [getLayoutDone_new]; decide

/-- C5, amended: for a node id `n` that is below `INT_MAX` or already inside the vector
concerned, offset, dirty and layout-done are total maps with a default: `setChildOffset(n,
v)` returns normally and afterwards `getOffset(m)` is `v` if `m = n` and its previous value
otherwise, for every `m`; likewise for `setDirty` / `isDirty` and `setLayoutDone` /
`getLayoutDone`. -/
theorem set_get_total_map [Zero V] (l : Layout S V) (n : NodeID) (v : V) (b : Bool) :
    (Writable l.m_child_offsets.length n →
      ∃ l1, l.setChildOffset n v = .ok l1 ∧
        ∀ m, l1.getOffset m = if m = n then v else l.getOffset m) ∧
    (Writable l.m_dirty.length n →
      ∃ l1, l.setDirty n b = .ok l1 ∧ ∀ m, l1.isDirty m = if m = n then b else l.isDirty m) ∧
    (Writable l.m_layout_done.length n →
      ∃ l1, l.setLayoutDone n b = .ok l1 ∧
        ∀ m, l1.getLayoutDone m = if m = n then b else l.getLayoutDone m) :=
  ⟨fun h => ⟨_, setChildOffset_ok l n v h, fun m => getOffset_written l n m v⟩,
   fun h => ⟨_, setDirty_ok l n b h, fun m => isDirty_written l n m b⟩,
   fun h => ⟨_, setLayoutDone_ok l n b h, fun m => getLayoutDone_written l n m b⟩⟩

/-- Witness of C5: on `sampleLayout`, a write at node 5, beyond each of the three vectors;
node 4, between the old end and 5, keeps the defaults. -/
theorem set_get_total_map_witness :
    (Writable sampleLayout.m_child_offsets.length 5 ∧
      ∃ l1, sampleLayout.setChildOffset 5 8 = .ok l1 ∧ l1.getOffset 5 = 8 ∧
        l1.getOffset 4 = 0 ∧ l1.getOffset 2 = 9) ∧
    (Writable sampleLayout.m_dirty.length 5 ∧
      ∃ l1, sampleLayout.setDirty 5 false = .ok l1 ∧ l1.isDirty 5 = false ∧
        l1.isDirty 4 = true) ∧
    (Writable sampleLayout.m_layout_done.length 5 ∧
      ∃ l1, sampleLayout.setLayoutDone 5 true = .ok l1 ∧ l1.getLayoutDone 5 = true ∧
        l1.getLayoutDone 4 = false) :=
  have h1 : Writable sampleLayout.m_child_offsets.length 5 := Or.inl (by decide)
  have h2 : Writable sampleLayout.m_dirty.length 5 := Or.inl (by decide)
  have h3 : Writable sampleLayout.m_layout_done.length 5 := Or.inl (by decide)
  ⟨⟨h1, match (set_get_total_map sampleLayout 5 8 false).1 h1 with
      | ⟨l1, hset, hget⟩ => ⟨l1, hset, hget 5, hget 4, hget 2⟩⟩,
   ⟨h2, match (set_get_total_map sampleLayout 5 8 false).2.1 h2 with
      | ⟨l1, hset, hget⟩ => ⟨l1, hset, hget 5, hget 4⟩⟩,
   ⟨h3, match (set_get_total_map sampleLayout 5 8 true).2.2 h3 with
      | ⟨l1, hset, hget⟩ => ⟨l1, hset, hget 5, hget 4⟩⟩⟩

/-- C6 as stated fails at the non-negative node id `INT_MAX` on a fresh layout: each of
the four setters throws, and the vector still has 0 entries, not `max(0, INT_MAX + 1)`. -/
theorem set_INT_MAX_not_grown :
    ((new : Layout Unit Int).after
      ((new : Layout Unit Int).setShape 2147483647 (some ()))).m_shapes.length = 0 ∧
    ((new : Layout Unit Int).after
      ((new : Layout Unit Int).setChildOffset 2147483647 1)).m_child_offsets.length = 0 ∧
    ((new : Layout Unit Int).after
      ((new : Layout Unit Int).setDirty 2147483647 false)).m_dirty.length = 0 ∧
    ((new : Layout Unit Int).after
      ((new : Layout Unit Int).setLayoutDone 2147483647 true)).m_layout_done.length = 0 ∧
    ¬ GrownFor (new : Layout Unit Int).m_shapes.length
      ((new : Layout Unit Int).after
        ((new : Layout Unit Int).setShape 2147483647 (some ()))).m_shapes.length 2147483647 := by
  rw [setShape_error new 2147483647 (some ()) not_writable_INT_MAX,
    setChildOffset_error new 2147483647 1 not_writable_INT_MAX,
    setDirty_error new 2147483647 false not_writable_INT_MAX,
    setLayoutDone_error new 2147483647 true not_writable_INT_MAX]
  refine ⟨rfl, rfl, rfl, rfl, ?_⟩
  intro h
  exact absurd h.2.2 (Nat.not_lt_zero _)

/-- C6, amended: for a node id `n` that is below `INT_MAX` or already inside the vector
concerned, storage only grows: `setShape(n, s)` returns normally and afterwards the shape
vector has `max(previous length, n + 1)` entries, hence at least as many as before and
more than `n`; the same for the offset, dirty and layout-done vectors under their
setters. -/
theorem storage_only_grows [Zero V] (l : Layout S V) (n : NodeID) (s : Option S) (v : V)
    (b : Bool) :
    (Writable l.m_shapes.length n →
      ∃ l1, l.setShape n s = .ok l1 ∧ GrownFor l.m_shapes.length l1.m_shapes.length n) ∧
    (Writable l.m_child_offsets.length n →
      ∃ l1, l.setChildOffset n v = .ok l1 ∧
        GrownFor l.m_child_offsets.length l1.m_child_offsets.length n) ∧
    (Writable l.m_dirty.length n →
      ∃ l1, l.setDirty n b = .ok l1 ∧ GrownFor l.m_dirty.length l1.m_dirty.length n) ∧
    (Writable l.m_layout_done.length n →
      ∃ l1, l.setLayoutDone n b = .ok l1 ∧
        GrownFor l.m_layout_done.length l1.m_layout_done.length n) := by
  have key : ∀ before now : Nat, now = max before (n + 1) → GrownFor before now n := by
    intro before now h
    exact ⟨h, by omega, by omega⟩
  exact ⟨fun h => ⟨_, setShape_ok l n s h, key _ _ (length_written l.m_shapes n s none)⟩,
    fun h => ⟨_, setChildOffset_ok l n v h, key _ _ (length_written l.m_child_offsets n v 0)⟩,
    fun h => ⟨_, setDirty_ok l n b h, key _ _ (length_written l.m_dirty n b true)⟩,
    fun h => ⟨_, setLayoutDone_ok l n b h,
      key _ _ (length_written l.m_layout_done n b false)⟩⟩

/-- Witness of C6: on `sampleLayout`, node 5 grows each vector to 6 entries and node 1,
inside the offset vector, leaves that one at 3. -/
theorem storage_only_grows_witness :
    (Writable sampleLayout.m_shapes.length 5 ∧
      ∃ l1, sampleLayout.setShape 5 none = .ok l1 ∧ GrownFor 0 l1.m_shapes.length 5) ∧
    (Writable sampleLayout.m_child_offsets.length 1 ∧
      ∃ l1, sampleLayout.setChildOffset 1 8 = .ok l1 ∧
        GrownFor 3 l1.m_child_offsets.length 1) ∧
    (Writable sampleLayout.m_dirty.length 5 ∧
      ∃ l1, sampleLayout.setDirty 5 false = .ok l1 ∧ GrownFor 0 l1.m_dirty.length 5) ∧
    (Writable sampleLayout.m_layout_done.length 5 ∧
      ∃ l1, sampleLayout.setLayoutDone 5 true = .ok l1 ∧
        GrownFor 0 l1.m_layout_done.length 5) :=
  ⟨⟨Or.inl (by decide), (storage_only_grows sampleLayout 5 none 8 false).1 (Or.inl (by decide))⟩,
   ⟨Or.inl (by decide),
    (storage_only_grows sampleLayout 1 none 8 false).2.1 (Or.inl (by decide))⟩,
   ⟨Or.inl (by decide),
    (storage_only_grows sampleLayout 5 none 8 false).2.2.1 (Or.inl (by decide))⟩,
   ⟨Or.inl (by decide),
    (storage_only_grows sampleLayout 5 none 8 true).2.2.2 (Or.inl (by decide))⟩⟩

/-- C7: for `additionalNodes >= 0` (and a sum that fits `size_t`),
`growDataStructures(additionalNodes)` makes the backing storage larger by exactly
`additionalNodes` entries, all of them in the offset vector, and leaves `getOffset(m)`,
`isDirty(m)`, `getLayoutDone(m)` and the stored shape of `m` unchanged for every `m`. -/
theorem growDataStructures_frame [Zero V] (l : Layout S V) (additionalNodes : Int)
    (m : NodeID) (hpos : 0 ≤ additionalNodes)
    (hfit : (l.m_child_offsets.length : Int) + additionalNodes < 2 ^ 64) :
    (l.growDataStructures additionalNodes).storageEntries =
      l.storageEntries + additionalNodes.toNat ∧
    (l.growDataStructures additionalNodes).m_child_offsets.length =
      l.m_child_offsets.length + additionalNodes.toNat ∧
    (l.growDataStructures additionalNodes).m_shapes.length = l.m_shapes.length ∧
    (l.growDataStructures additionalNodes).m_dirty.length = l.m_dirty.length ∧
    (l.growDataStructures additionalNodes).m_layout_done.length = l.m_layout_done.length ∧
    (l.growDataStructures additionalNodes).getOffset m = l.getOffset m ∧
    (l.growDataStructures additionalNodes).isDirty m = l.isDirty m ∧
    (l.growDataStructures additionalNodes).getLayoutDone m = l.getLayoutDone m ∧
    (l.growDataStructures additionalNodes).storedShape m = l.storedShape m := by
  have hsize : ((((l.m_child_offsets.length : Int) + additionalNodes) % 2 ^ 64).toNat) =
      l.m_child_offsets.length + additionalNodes.toNat := by
    rw [Int.emod_eq_of_lt (by omega) hfit]
    omega
  have hlen : (l.growDataStructures additionalNodes).m_child_offsets.length =
      l.m_child_offsets.length + additionalNodes.toNat := by
    show (resize l.m_child_offsets _ 0).length = _
    rw [length_resize, hsize]
  refine ⟨?_, hlen, rfl, rfl, rfl, ?_, rfl, rfl, rfl⟩
  · unfold storageEntries
    rw [hlen]
    show l.m_shapes.length + _ + l.m_layout_done.length + l.m_dirty.length = _
    omega
  · rw [getOffset_growDataStructures, hsize]
    by_cases hm : m < l.m_child_offsets.length + additionalNodes.toNat
    · rw [if_pos hm]
    · have hout : l.m_child_offsets.length ≤ m :=
        le_trans (Nat.le_add_right _ _) (Nat.le_of_not_lt hm)
      rw [if_neg hm, getOffset_eq_getD, List.getD_eq_getElem?_getD,
        List.getElem?_eq_none hout]
      rfl

/-- Witness of C7: `growDataStructures(2)` on `sampleLayout`, observed at node 4. -/
theorem growDataStructures_frame_witness :
    (0 : Int) ≤ 2 ∧ ((sampleLayout.m_child_offsets.length : Int) + 2 < 2 ^ 64) ∧
    (sampleLayout.growDataStructures 2).storageEntries = sampleLayout.storageEntries + 2 ∧
    (sampleLayout.growDataStructures 2).m_child_offsets.length = 3 + 2 ∧
    (sampleLayout.growDataStructures 2).getOffset 4 = sampleLayout.getOffset 4 :=
  have hfit : (sampleLayout.m_child_offsets.length : Int) + 2 < 2 ^ 64 := by decide
  ⟨by decide, hfit,
    (growDataStructures_frame sampleLayout 2 4 (by decide) hfit).1,
    (growDataStructures_frame sampleLayout 2 4 (by decide) hfit).2.1,
    (growDataStructures_frame sampleLayout 2 4 (by decide) hfit).2.2.2.2.2.1⟩

/-- C8: the four per-node fields are independent: `setShape` leaves offset, dirty and
layout-done of every node unchanged; `setChildOffset` leaves dirty, layout-done and the
stored shape unchanged; `setDirty` leaves offset, layout-done and the stored shape
unchanged; `setLayoutDone` leaves offset, dirty and the stored shape unchanged. This holds
for the layout after the call whether the setter returns or throws. -/
theorem fields_independent [Zero V] (l : Layout S V) (n m : NodeID) (s : Option S) (v : V)
    (b : Bool) :
    ((l.after (l.setShape n s)).getOffset m = l.getOffset m ∧
      (l.after (l.setShape n s)).isDirty m = l.isDirty m ∧
      (l.after (l.setShape n s)).getLayoutDone m = l.getLayoutDone m) ∧
    ((l.after (l.setChildOffset n v)).isDirty m = l.isDirty m ∧
      (l.after (l.setChildOffset n v)).getLayoutDone m = l.getLayoutDone m ∧
      (l.after (l.setChildOffset n v)).storedShape m = l.storedShape m) ∧
    ((l.after (l.setDirty n b)).getOffset m = l.getOffset m ∧
      (l.after (l.setDirty n b)).getLayoutDone m = l.getLayoutDone m ∧
      (l.after (l.setDirty n b)).storedShape m = l.storedShape m) ∧
    ((l.after (l.setLayoutDone n b)).getOffset m = l.getOffset m ∧
      (l.after (l.setLayoutDone n b)).isDirty m = l.isDirty m ∧
      (l.after (l.setLayoutDone n b)).storedShape m = l.storedShape m) ∧
    (∀ l1, l.setShape n s = .ok l1 → l.after (l.setShape n s) = l1) ∧
    (∀ l1, l.setChildOffset n v = .ok l1 → l.after (l.setChildOffset n v) = l1) ∧
    (∀ l1, l.setDirty n b = .ok l1 → l.after (l.setDirty n b) = l1) ∧
    (∀ l1, l.setLayoutDone n b = .ok l1 → l.after (l.setLayoutDone n b) = l1) :=
  ⟨⟨getOffset_congr _ l (after_setShape_frame l n s).1 m,
      isDirty_congr _ l (after_setShape_frame l n s).2.1 m,
      getLayoutDone_congr _ l (after_setShape_frame l n s).2.2 m⟩,
    ⟨isDirty_congr _ l (after_setChildOffset_frame l n v).2.1 m,
      getLayoutDone_congr _ l (after_setChildOffset_frame l n v).2.2 m,
      storedShape_congr _ l (after_setChildOffset_frame l n v).1 m⟩,
    ⟨getOffset_congr _ l (after_setDirty_frame l n b).2.1 m,
      getLayoutDone_congr _ l (after_setDirty_frame l n b).2.2 m,
      storedShape_congr _ l (after_setDirty_frame l n b).1 m⟩,
    ⟨getOffset_congr _ l (after_setLayoutDone_frame l n b).2.1 m,
      isDirty_congr _ l (after_setLayoutDone_frame l n b).2.2 m,
      storedShape_congr _ l (after_setLayoutDone_frame l n b).1 m⟩,
    fun l1 h => by rw [h]; rfl, fun l1 h => by rw [h]; rfl,
    fun l1 h => by rw [h]; rfl, fun l1 h => by rw [h]; rfl⟩

/-- Witness of C8: `setShape(2, s)` on `sampleLayout` returns normally and the offset of
node 2 is still 9. -/
theorem fields_independent_witness :
    ∃ l1, sampleLayout.setShape 2 (some ()) = .ok l1 ∧ l1.getOffset 2 = 9 :=
  have hset := setShape_ok sampleLayout 2 (some ()) (Or.inl (by decide))
  ⟨_, hset,
    ((fields_independent sampleLayout 2 2 (some ()) 0 false).2.2.2.2.1 _ hset) ▸
      (fields_independent sampleLayout 2 2 (some ()) 0 false).1.1⟩

end Layout

end tree

/-! ## The tree `Structure` -/

namespace tree

theorem childIds_succ (n : Nat) : childIds (n + 1) = childIds n ++ [n + 1] := by
  simp [childIds, List.range_succ]

theorem length_childIds (n : Nat) : (childIds n).length = n := by
  simp [childIds]

theorem getElem?_childIds (n i : Nat) :
    (childIds n)[i]? = if i < n then some (i + 1) else none := by
  by_cases h : i < n
  · rw [if_pos h]
    simp [childIds, List.getElem?_range h]
  · rw [if_neg h]
    exact List.getElem?_eq_none (by rw [length_childIds]; omega)

theorem nodup_childIds (n : Nat) : (childIds n).Nodup :=
  List.Nodup.map (fun _ _ h => Nat.succ.inj h) (List.nodup_range n)

theorem zero_not_mem_childIds (n : Nat) : 0 ∉ childIds n := by
  simp [childIds]

/-- One `addExtraChild(root)` on the tree with `n` children gives the tree with `n + 1`
children and returns the id `n + 1`. -/
theorem addExtraChild_fanTree (n : Nat) :
    (fanTree n).addExtraChild 0 = .ok (fanTree (n + 1), n + 1) := by
  have hnodes : (fanTree n).nodes.length = n + 1 := by simp [fanTree]
  have hget : (fanTree n).nodes.get? 0 =
      some { parent := none, children := childIds n, status := .Undetermined } := rfl
  unfold Structure.addExtraChild
  rw [hget]
  simp only [hnodes]
  have htree : (Structure.mk ((fanTree n).nodes.set 0
        (Node.mk none (childIds n ++ [n + 1]) .Undetermined) ++
        [Node.mk (some 0) [] .Undetermined])) = fanTree (n + 1) := by
    simp [fanTree, childIds_succ, List.replicate_succ']
  rw [htree]

/-- The `n` sequential `addExtraChild(root)` calls on the tree of the root alone give the
tree with `n` children and return the ids `1, ..., n`. -/
theorem addExtraChildren_fanTree (n : Nat) :
    (fanTree 0).addExtraChildren 0 n = .ok (fanTree n, childIds n) := by
  induction n with
  | zero => rfl
  | succ n ih =>
    simp only [Structure.addExtraChildren, ih, addExtraChild_fanTree, childIds_succ]

theorem growing_tree_eq (n : Nat) : growing_tree n = some (0, fanTree n, childIds n) := by
  have hroot : Structure.createRoot {} = some (fanTree 0, 0) := rfl
  unfold growing_tree
  rw [hroot]
  simp only [addExtraChildren_fanTree]

theorem getChild_fanTree (n i : Nat) :
    (fanTree n).getChild 0 i = if i < n then .ok (i + 1) else .error .IndexOutOfRange := by
  have hget : (fanTree n).nodes.get? 0 =
      some { parent := none, children := childIds n, status := .Undetermined } := rfl
  unfold Structure.getChild
  rw [hget]
  simp only [List.get?_eq_getElem?, getElem?_childIds]
  by_cases h : i < n
  · simp only [if_pos h]
  · simp only [if_neg h]

theorem childCount_fanTree (n : Nat) : (fanTree n).childCount 0 = n := by
  have hget : (fanTree n).nodes.get? 0 =
      some { parent := none, children := childIds n, status := .Undetermined } := rfl
  unfold Structure.childCount
  rw [hget]
  exact length_childIds n

theorem parent_fanTree (n i : Nat) (h : i < n) :
    ((fanTree n).nodes.get? (i + 1)).map Node.parent = some (some 0) := by
  simp [fanTree, List.getElem?_replicate, h]

/-- C2: for every `n`, `createRoot` followed by `n` sequential `addExtraChild(root)` calls
succeeds with root 0; the calls return the `n` distinct ids `1, ..., n`, none of them the
root, the tree has `n + 1` nodes and the root `n` children; for every `i < n`,
`getChild(root, i)` is the id the `i`-th call returned, which names a node whose parent is
the root, and `getChild(root, n)` is out of range; going on to `n + k` additions returns
the same first `n` ids and leaves `getChild(root, i)` as it was for `i < n`. -/
theorem growing_tree_getChild (n : Nat) :
    ∃ str created, growing_tree n = some (0, str, created) ∧
      created.length = n ∧ created.Nodup ∧ 0 ∉ created ∧
      str.nodes.length = n + 1 ∧ str.childCount 0 = n ∧
      str.getChild 0 n = .error .IndexOutOfRange ∧
      (∀ i, i < n → created[i]? = some (i + 1) ∧ str.getChild 0 i = .ok (i + 1) ∧
        (str.nodes.get? (i + 1)).map Node.parent = some (some 0)) ∧
      ∀ k, ∃ str2 created2, growing_tree (n + k) = some (0, str2, created2) ∧
        ∀ i, i < n → created2[i]? = created[i]? ∧ str2.getChild 0 i = str.getChild 0 i := by
  refine ⟨fanTree n, childIds n, growing_tree_eq n, length_childIds n, nodup_childIds n,
    zero_not_mem_childIds n, by simp [fanTree], childCount_fanTree n, ?_, ?_, ?_⟩
  · rw [getChild_fanTree, if_neg (Nat.lt_irrefl n)]
  · intro i hi
    exact ⟨by rw [getElem?_childIds, if_pos hi], by rw [getChild_fanTree, if_pos hi],
      parent_fanTree n i hi⟩
  · intro k
    refine ⟨fanTree (n + k), childIds (n + k), growing_tree_eq (n + k), ?_⟩
    intro i hi
    have hik : i < n + k := Nat.lt_of_lt_of_le hi (Nat.le_add_right n k)
    exact ⟨by rw [getElem?_childIds, getElem?_childIds, if_pos hi, if_pos hik],
      by rw [getChild_fanTree, getChild_fanTree, if_pos hi, if_pos hik]⟩

/-- Witness of C2: the test `growing_tree` itself, three children, read at index 1: the
second call returned node 2, and `getChild(root, 1)` is node 2. -/
theorem growing_tree_getChild_witness :
    (1 : Nat) < 3 ∧ ∃ str created, growing_tree 3 = some (0, str, created) ∧
      created[1]? = some 2 ∧ str.getChild 0 1 = .ok 2 :=
  match growing_tree_getChild 3 with
  | ⟨str, created, hrun, _, _, _, _, _, _, hget, _⟩ =>
    ⟨by decide, str, created, hrun, (hget 1 (by decide)).1, (hget 1 (by decide)).2.1⟩

end tree

/-! ## The conductor -/

namespace IntMap

variable {β : Type}

theorem find_isSome_iff (m : IntMap β) (k : Int) : (m.find k).isSome = true ↔ k ∈ m.keys := by
  induction m with
  | nil => simp [find, keys]
  | cons e m ih =>
    obtain ⟨k1, v1⟩ := e
    by_cases h : k1 = k
    · simp [find, keys, h]
    · have h2 : ¬ k = k1 := fun e => h e.symm
      simp only [find, if_neg h, ih, keys, List.map_cons, List.mem_cons, h2, false_or]

/-- A map that holds every id in `[0, e)` has at least `e` entries. -/
theorem le_length_of_initial_segment (m : IntMap β) (e : Int)
    (h : ∀ k : Int, 0 ≤ k → k < e → k ∈ m.keys) : e ≤ m.length := by
  by_contra hlt
  have hsub : (Finset.range (m.length + 1)).image (fun i : Nat => (i : Int)) ⊆
      m.keys.toFinset := by
    intro x hx
    rw [Finset.mem_image] at hx
    obtain ⟨i, hi, rfl⟩ := hx
    rw [Finset.mem_range] at hi
    rw [List.mem_toFinset]
    exact h i (Int.natCast_nonneg i) (by omega)
  have hcard := Finset.card_le_card hsub
  rw [Finset.card_image_of_injective _ Nat.cast_injective, Finset.card_range] at hcard
  have hk : m.keys.toFinset.card ≤ m.length := by
    have := List.toFinset_card_le m.keys
    simpa [keys] using this
  omega

end IntMap

namespace Conductor

variable {N : Type}

/-- The loop of `getNextExecId`, entered at `eid` with every smaller non-negative id in
use, stops within the fuel at the first free id. -/
theorem getNextExecIdLoop_spec (c : Conductor N) (fuel : Nat) (eid : Int) (h0 : 0 ≤ eid)
    (hprev : ∀ k : Int, 0 ≤ k → k < eid → k ∈ c.m_executions.keys)
    (hfuel : (c.m_executions.length : Int) + 1 ≤ eid + fuel) :
    ∃ r, c.getNextExecIdLoop fuel eid = some r ∧ 0 ≤ r ∧ r ∉ c.m_executions.keys ∧
      ∀ k : Int, 0 ≤ k → k < r → k ∈ c.m_executions.keys := by
  induction fuel generalizing eid with
  | zero =>
    have := IntMap.le_length_of_initial_segment c.m_executions eid hprev
    omega
  | succ fuel ih =>
    unfold getNextExecIdLoop
    by_cases hfound : (c.m_executions.find eid).isSome = true
    · rw [if_pos hfound]
      have hmem := (IntMap.find_isSome_iff c.m_executions eid).mp hfound
      refine ih (eid + 1) (by omega) ?_ (by push_cast at hfuel ⊢; omega)
      intro k hk0 hk
      by_cases hke : k = eid
      · rw [hke]; exact hmem
      · exact hprev k hk0 (by omega)
    · rw [if_neg hfound]
      exact ⟨eid, rfl, h0, fun hmem => hfound ((IntMap.find_isSome_iff _ _).mpr hmem), hprev⟩

/-- C9: `getNextExecId` terminates (the loop stops within one test more than the map has
entries) and returns the smallest non-negative integer that is not an execution id: the
result is not a key of `m_executions`, and every `k` with `0 <= k < result` is a key. The
result is at most the number of entries, so `eid` stays in the range of `int`. -/
theorem getNextExecId_smallest_free (c : Conductor N) :
    ∃ r, c.getNextExecId = some r ∧ 0 ≤ r ∧ r ≤ c.m_executions.length ∧
      r ∉ c.m_executions.keys ∧ ∀ k : Int, 0 ≤ k → k < r → k ∈ c.m_executions.keys := by
  obtain ⟨r, hr, h0, hfree, hall⟩ :=
    getNextExecIdLoop_spec c (c.m_executions.length + 1) 0 (le_refl 0)
      (fun k hk0 hk => absurd hk (not_lt.mpr hk0)) (by push_cast; omega)
  exact ⟨r, hr, h0, IntMap.le_length_of_initial_segment c.m_executions r hall, hfree, hall⟩

/-- Witness of C9: with the ids 0, 2, 1, -3 and 100 in use the next id is 3, and the id 2
below it is in use. -/
theorem getNextExecId_smallest_free_witness :
    sampleConductor.getNextExecId = some 3 ∧
      ∃ r, sampleConductor.getNextExecId = some r ∧ (2 < r → 2 ∈ sampleConductor.m_executions.keys) :=
  ⟨by decide,
    match getNextExecId_smallest_free sampleConductor with
    | ⟨r, hr, _, _, _, hall⟩ => ⟨r, hr, hall 2 (by decide)⟩⟩

/-- C10 (the code at the failing input): on a conductor with no executions and no builders,
`handleStart` with `ex_id = 0` and random id 100 records the execution under 100 but stores
its builder under 0, so the execution id 100 has no builder. A following `handleStart` with
`ex_id = 100` finds the execution, creates nothing, and `m_builders[100]` inserts and
yields the null pointer. -/
theorem handleStart_builder_under_wrong_id :
    startedAnonymous.m_executions.keys = [100] ∧
    startedAnonymous.m_builders.keys = [0] ∧
    startedAnonymous.m_builders.find 100 = none ∧
    (startedAnonymous.handleStart 101 none "solver" 100 false).2 = none ∧
    (startedAnonymous.handleStart 101 none "solver" 100 false).1.m_builders.find 100 =
      some none ∧
    (startedAnonymous.handleStart 101 none "solver" 100 false).1.builders.length = 1 := by
  decide

end Conductor

end cpprofiler
